import Mathlib

/-!
Shallow embedding of `src/legal_team_fallback.py` (the Streamlit script of the
legal-reviewer repository) together with theorems settling the frozen claims.

External collaborators (the agno PDF knowledge-base library, the OpenAI model
wrapper, pypdf, the temp-file system) are modelled as oracles: an `UploadEnv`
(resp. `AnalysisEnv`) records, for one upload attempt (resp. one Analyze click),
the outcome of each external call — a normal result or a raised exception.
Everything the repository itself does (control flow, session-state mutation,
message emission, truncation arithmetic) is translated directly from the source.

An important fact about the source: the name `DocumentChunking`, used on line 95
of `legal_team_fallback.py`, is bound by no import (lines 2-9 import `os`,
`streamlit`, `tempfile`, `Agent`, `OpenAIChat`, `OpenAIEmbedder`,
`DuckDuckGoTools`, `PDFKnowledgeBase`, `PDFReader`) and by no definition in the
file, so in the shipped module the knowledge-base construction step of every
upload attempt raises `NameError` before the assignment on line 92 completes.
This is recorded by `documentChunkingDefined` / `envFaithfulToSrc` below.  The
construction outcome is nevertheless kept as an oracle field so that the
behaviour of the later phases (load, verification, preview, analysis), which the
spec describes and which the full version `legal_team.py` (mentioned by
`src/streamlit_app.py` but not present under `src/`) reaches, can be stated.
-/

namespace LegalTeam

/-- A Python exception, abstracted to its display text. -/
abbrev PyExn := String

/-- A constructed `PDFKnowledgeBase` handle: it records the arguments of the
construction on lines 92-99 (temp-file path, chunk size, overlap). -/
structure KB where
  path : String
  chunk_size : Nat
  overlap : Nat
deriving DecidableEq, Repr

/-- The session state of lines 34-38: `st.session_state.document_knowledge_base`
and `st.session_state.processed_documents`.  The Python `set` of filename
strings is modelled as a duplicate-free list built by `setAdd`. -/
structure SessionState where
  document_knowledge_base : Option KB
  processed_documents : List String
deriving DecidableEq, Repr

/-- Initial session state (lines 34-38): no knowledge base, empty set. -/
def initialSessionState : SessionState := ⟨none, []⟩

/-- Python `set.add`: insert the element unless already present. -/
def setAdd (s : List String) (x : String) : List String :=
  if x ∈ s then s else s ++ [x]

/-- A user-visible Streamlit output emitted by the script: `st.success`,
`st.warning`, `st.error`, `st.info`, `st.text_area` (label and content) or
`st.markdown`. -/
inductive Msg
  | success (t : String)
  | warning (t : String)
  | error (t : String)
  | info (t : String)
  | textArea (label : String) (t : String)
  | markdown (t : String)
deriving DecidableEq, Repr

/-- External side effects an upload attempt performs, in order: the temp-file
write (lines 87-89), the `PDFKnowledgeBase` construction (lines 92-99), the
`load` call (line 102) and the verification `search` call (line 107). -/
inductive UploadEvent
  | wroteTempFile
  | constructedKB
  | loadedKB
  | searchedKB
deriving DecidableEq, Repr

/-- Whether the name `DocumentChunking` (line 95) is bound in the module
`src/legal_team_fallback.py`.  It is not: no import of lines 2-9 and no
definition in the file binds it, so evaluating line 95 raises `NameError`. -/
def documentChunkingDefined : Bool := false

/-- Oracle for the external calls of one upload attempt.  `writeResult` is the
temp-file path produced by lines 87-89 (or the exception raised there);
`constructResult` is the outcome of evaluating lines 92-99 — in the shipped
module this is always a `NameError` because `documentChunkingDefined = false`,
and the `ok` outcome models the evidently intended construction, as in the full
version `legal_team.py` which is not under `src/`; `loadResult` is the outcome
of `load(recreate=True, upsert=True)` (line 102); `searchResult` is the outcome
of `search("test")` (line 107), a chunk count on success (`0` = empty, falsy,
result list); `previewResult` is the outcome of the pypdf read of lines
125-134: page count and first-page extracted text. -/
structure UploadEnv where
  writeResult : Except PyExn String
  constructResult : Except PyExn Unit
  loadResult : Except PyExn Unit
  searchResult : Except PyExn Nat
  previewResult : Except PyExn (Nat × String)

/-- An `UploadEnv` is consistent with the module as shipped under `src/` iff
its construction step raises: `DocumentChunking` is unbound there, so line 95
raises `NameError` on every attempt that reaches it. -/
def envFaithfulToSrc (env : UploadEnv) : Prop :=
  ∃ e, env.constructResult = Except.error e

/-- The first-page preview string of line 134:
`text[:200] + "..." if len(text) > 200 else text`. -/
def previewText (t : String) : String :=
  if t.length > 200 then t.take 200 ++ "..." else t

/-- Messages of the verification block, lines 104-113: on a successful search a
success (nonempty result) or warning (empty result), on an exception the error
of the inner `except` handler. -/
def verificationMsgs (env : UploadEnv) : List Msg :=
  match env.searchResult with
  | Except.error e => [Msg.error s!"❌ Knowledge base verification failed: {e}"]
  | Except.ok n =>
      if 0 < n then [Msg.success s!"✅ Knowledge base verified with {n} searchable chunks"]
      else [Msg.warning "⚠️ Knowledge base created but no searchable content found"]

/-- Messages of the preview block, lines 123-137: on a pypdf failure the
warning of its `except` handler; otherwise the page-count info and, when the
page count is positive, the `st.text_area` showing `previewText` of the first
page. -/
def previewMsgs (env : UploadEnv) : List Msg :=
  match env.previewResult with
  | Except.error e => [Msg.warning s!"Could not preview PDF content: {e}"]
  | Except.ok (pageCount, firstPageText) =>
      [Msg.info s!"📄 PDF Pages: {pageCount}"] ++
      (if 0 < pageCount then [Msg.textArea "📝 First Page Preview:" (previewText firstPageText)]
       else [])

/-- Result of one run of the upload branch: the session state after the
attempt, the emitted messages, and the external side effects that occurred. -/
structure UploadResult where
  state : SessionState
  msgs : List Msg
  events : List UploadEvent
deriving DecidableEq, Repr

/-- The upload handler, lines 82-140 of `legal_team_fallback.py`, for one
uploaded document of the given name and size, with the sidebar chunk-size and
overlap parameters.  If the name is already in `processed_documents` nothing
happens (line 83).  Otherwise: temp-file write; `PDFKnowledgeBase` construction
(the session field is assigned only once construction succeeds, line 92);
`load`; the verification block (whose exception is caught by the inner handler
and does not abort); `processed_documents.add` (line 115); the success and info
messages (lines 117-121); the preview block.  Any exception of the write,
construction or load phases is caught by the outer handler (lines 139-140). -/
def uploadHandler (env : UploadEnv) (name : String) (size : Nat)
    (chunk_size overlap : Nat) (st : SessionState) : UploadResult :=
  if name ∈ st.processed_documents then ⟨st, [], []⟩
  else
    match env.writeResult with
    | Except.error e => ⟨st, [Msg.error s!"Error processing document: {e}"], []⟩
    | Except.ok temp_file_path =>
      match env.constructResult with
      | Except.error e =>
          ⟨st, [Msg.error s!"Error processing document: {e}"], [UploadEvent.wroteTempFile]⟩
      | Except.ok _ =>
        let st1 : SessionState :=
          { st with document_knowledge_base := some ⟨temp_file_path, chunk_size, overlap⟩ }
        match env.loadResult with
        | Except.error e =>
            ⟨st1, [Msg.error s!"Error processing document: {e}"],
              [UploadEvent.wroteTempFile, UploadEvent.constructedKB]⟩
        | Except.ok _ =>
          let st2 : SessionState :=
            { st1 with processed_documents := setAdd st1.processed_documents name }
          let docCount := st2.processed_documents.length
          ⟨st2,
            verificationMsgs env ++
            [Msg.success "✅ Document processed and stored in knowledge base!",
             Msg.info s!"📊 Document Details: {name} ({size} bytes)",
             Msg.info s!"🔍 Knowledge Base Status: Active with {docCount} document(s)"] ++
            previewMsgs env,
            [UploadEvent.wroteTempFile, UploadEvent.constructedKB,
             UploadEvent.loadedKB, UploadEvent.searchedKB]⟩

/-- Whether the analysis interface is rendered (line 243): the truthiness check
of `st.session_state.document_knowledge_base`. -/
def analysisInterfaceAvailable (st : SessionState) : Bool :=
  st.document_knowledge_base.isSome

/-- An `agno` Agent descriptor as configured by `initialize_ai_agents`
(lines 146-212): the constructor keyword arguments, with Python defaults
(`knowledge=None`, `tools=[]`, `search_knowledge=False`) for the omitted
ones. -/
structure Agent where
  name : String
  model : String
  knowledge : Option KB
  search_knowledge : Bool
  description : String
  instructions : List String
  tools : List String
  show_tool_calls : Bool
  markdown : Bool
deriving DecidableEq, Repr

/-- The function `initialize_ai_agents` (lines 143-215): given a truthy
session knowledge base, four configured agents; otherwise
`None, None, None, None`. -/
def initialize_ai_agents (kb : Option KB) :
    Option Agent × Option Agent × Option Agent × Option Agent :=
  match kb with
  | some k =>
      (some { name := "LegalAdvisor"
              model := "gpt-4o-mini"
              knowledge := some k
              search_knowledge := true
              description := "AI Legal Advisor - Discovers and references relevant legal cases, regulations, and precedents using comprehensive document data."
              instructions :=
                ["IMPORTANT: You have access to a knowledge base containing the uploaded legal document. Use search_knowledge=True to access this content.",
                 "First, search the knowledge base for the document content using relevant keywords.",
                 "Extract all available data from the knowledge base and search for legal cases, regulations, and citations.",
                 "If needed, use DuckDuckGo for additional legal references.",
                 "Always provide source references in your answers.",
                 "If you cannot find content, explicitly state what you searched for and what was found."]
              tools := ["DuckDuckGoTools"]
              show_tool_calls := true
              markdown := true },
       some { name := "ContractExaminer"
              model := "gpt-4o-mini"
              knowledge := some k
              search_knowledge := true
              description := "AI Contract Examiner - Reviews contracts and identifies key clauses, risks, and obligations using comprehensive document data."
              instructions :=
                ["IMPORTANT: You have access to a knowledge base containing the uploaded legal document. Use search_knowledge=True to access this content.",
                 "First, search the knowledge base for the document content using relevant keywords like 'contract', 'agreement', 'terms', 'clauses'.",
                 "Extract all available data from the knowledge base and analyze the contract for key clauses, obligations, and potential ambiguities.",
                 "Reference specific sections of the contract where possible.",
                 "If you cannot find content, explicitly state what you searched for and what was found."]
              tools := []
              show_tool_calls := true
              markdown := true },
       some { name := "RiskAssessor"
              model := "gpt-4o-mini"
              knowledge := some k
              search_knowledge := true
              description := "AI Risk Assessor - Provides comprehensive risk assessment and strategic recommendations based on comprehensive contract data."
              instructions :=
                ["IMPORTANT: You have access to a knowledge base containing the uploaded legal document. Use search_knowledge=True to access this content.",
                 "First, search the knowledge base for the document content using relevant keywords like 'risk', 'liability', 'obligation', 'compliance'.",
                 "Using all data from the knowledge base, assess the contract for legal risks and opportunities.",
                 "Provide actionable recommendations and ensure compliance with applicable laws.",
                 "If you cannot find content, explicitly state what you searched for and what was found."]
              tools := []
              show_tool_calls := true
              markdown := true },
       some { name := "AnalysisCoordinator"
              model := "gpt-4o-mini"
              knowledge := none
              search_knowledge := false
              description := "AI Analysis Coordinator - Integrates responses from the Legal Advisor, Contract Examiner, and Risk Assessor into a comprehensive report."
              instructions :=
                ["Combine and summarize all insights provided by the Legal Advisor, Contract Examiner, and Risk Assessor. Ensure the final report includes references to all relevant sections from the document."]
              tools := []
              show_tool_calls := true
              markdown := true })
  | none => (none, none, none, none)

/-- An agno `RunResponse` object: its `content` field (used for rendering) and
its `str(...)` rendering (used for the truncated embedding on lines
236-238). -/
structure RunResponse where
  content : String
  str : String
deriving DecidableEq, Repr

/-- One `agent.run(prompt)` invocation, recorded as the agent name and the
prompt it received. -/
structure AgentCall where
  agent : String
  prompt : String
deriving DecidableEq, Repr

/-- Oracle for the external model invocations of one Analyze click: the
outcome of `run` for each configured agent, as a function of the prompt.  A
`Except.error` outcome is an exception raised inside `run` — the source wraps
none of these calls in a `try`. -/
structure AnalysisEnv where
  advisorRun : String → Except PyExn RunResponse
  examinerRun : String → Except PyExn RunResponse
  riskRun : String → Except PyExn RunResponse
  coordinatorRun : String → Except PyExn RunResponse

/-- The fixed text of the coordinator prompt (lines 231-236) up to the first
embedded specialist response. -/
def coordinatorPromptHeader : String :=
  "Create a concise legal analysis report covering:\n1. Key findings from research\n2. Contract analysis highlights\n3. Risk assessment summary\n4. Strategic recommendations\n\nResearch: "

/-- The prompt sent to the coordinator agent (lines 230-239), given the
`str(...)` renderings of the three specialist responses: each is embedded
truncated to its first 500 characters (`[:500]`), followed by a literal
ellipsis. -/
def coordinatorPrompt (research contract strategy : String) : String :=
  coordinatorPromptHeader ++ research.take 500 ++ "...\nContract: " ++
    contract.take 500 ++ "...\nStrategy: " ++ strategy.take 500 ++ "..."

/-- The function `generate_team_analysis` (lines 218-240).  Returns either the
raised exception (none of the `run` calls is guarded), or the function's
return value: `Sum.inl` the initialization-error string of line 222, or
`Sum.inr` the coordinator's response object.  The second component is the
trace of `run` invocations, in order. -/
def generate_team_analysis (kb : Option KB) (env : AnalysisEnv)
    (analysis_query : String) :
    Except PyExn (Sum String RunResponse) × List AgentCall :=
  match initialize_ai_agents kb with
  | (some _, some _, some _, some _) =>
    let p1 := s!"Research legal aspects of: {analysis_query}"
    match env.advisorRun p1 with
    | Except.error e => (Except.error e, [⟨"LegalAdvisor", p1⟩])
    | Except.ok r1 =>
      let p2 := s!"Analyze contract for: {analysis_query}"
      match env.examinerRun p2 with
      | Except.error e => (Except.error e, [⟨"LegalAdvisor", p1⟩, ⟨"ContractExaminer", p2⟩])
      | Except.ok r2 =>
        let p3 := s!"Assess risks and strategy for: {analysis_query}"
        match env.riskRun p3 with
        | Except.error e =>
            (Except.error e,
             [⟨"LegalAdvisor", p1⟩, ⟨"ContractExaminer", p2⟩, ⟨"RiskAssessor", p3⟩])
        | Except.ok r3 =>
          let pc := coordinatorPrompt r1.str r2.str r3.str
          match env.coordinatorRun pc with
          | Except.error e =>
              (Except.error e,
               [⟨"LegalAdvisor", p1⟩, ⟨"ContractExaminer", p2⟩, ⟨"RiskAssessor", p3⟩,
                ⟨"AnalysisCoordinator", pc⟩])
          | Except.ok report =>
              (Except.ok (Sum.inr report),
               [⟨"LegalAdvisor", p1⟩, ⟨"ContractExaminer", p2⟩, ⟨"RiskAssessor", p3⟩,
                ⟨"AnalysisCoordinator", pc⟩])
  | _ =>
      (Except.ok (Sum.inl "Error: AI agents not properly initialized. Please ensure a document is uploaded and processed."),
       [])

/-- Result of one Analyze click: the rendered tab contents and status
messages, the trace of `run` invocations, and — when some statement raised an
exception no handler catches — that exception (the script run aborts there;
Streamlit surfaces a traceback, not a message the script produced). -/
structure AnalyzeResult where
  msgs : List Msg
  calls : List AgentCall
  uncaught : Option PyExn
deriving Repr

/-- The Analyze button handler (lines 283-319).  The emptiness check of line
284 is Python truthiness of the query string: only `""` is falsy — no
stripping.  Otherwise `generate_team_analysis` runs; the Analysis tab renders
`analysis_response.content` (line 295), which raises `AttributeError` when the
result is the plain error string of line 222; the Key Points and
Recommendations tabs each re-run `initialize_ai_agents` and invoke the
coordinator on a prompt embedding `analysis_response.content[:300]`. -/
def analyzeClick (st : SessionState) (env : AnalysisEnv)
    (analysis_query_input : String) : AnalyzeResult :=
  if analysis_query_input = "" then
    ⟨[Msg.warning "Please enter a query."], [], none⟩
  else
    match generate_team_analysis st.document_knowledge_base env analysis_query_input with
    | (Except.error e, calls) => ⟨[], calls, some e⟩
    | (Except.ok (Sum.inl _), calls) =>
        ⟨[], calls, some "AttributeError: str object has no attribute content"⟩
    | (Except.ok (Sum.inr resp), calls) =>
        let tab0 := Msg.markdown (if resp.content ≠ "" then resp.content else "No response generated.")
        match initialize_ai_agents st.document_knowledge_base with
        | (_, _, _, some _) =>
            let kpPrompt := s!"Extract 5 key legal points from: {resp.content.take 300}..."
            match env.coordinatorRun kpPrompt with
            | Except.error e =>
                ⟨[tab0], calls ++ [⟨"AnalysisCoordinator", kpPrompt⟩], some e⟩
            | Except.ok kp =>
              let tab1 := Msg.markdown (if kp.content ≠ "" then kp.content else "No summary generated.")
              match initialize_ai_agents st.document_knowledge_base with
              | (_, _, _, some _) =>
                  let recPrompt := s!"Provide 3 specific legal recommendations from: {resp.content.take 300}..."
                  match env.coordinatorRun recPrompt with
                  | Except.error e =>
                      ⟨[tab0, tab1],
                       calls ++ [⟨"AnalysisCoordinator", kpPrompt⟩,
                                 ⟨"AnalysisCoordinator", recPrompt⟩], some e⟩
                  | Except.ok recResp =>
                      ⟨[tab0, tab1,
                        Msg.markdown (if recResp.content ≠ "" then recResp.content
                                      else "No recommendations generated.")],
                       calls ++ [⟨"AnalysisCoordinator", kpPrompt⟩,
                                 ⟨"AnalysisCoordinator", recPrompt⟩], none⟩
              | _ =>
                  ⟨[tab0, tab1, Msg.error "Team Coordinator agent not available"],
                   calls ++ [⟨"AnalysisCoordinator", kpPrompt⟩], none⟩
        | _ =>
            ⟨[tab0, Msg.error "Team Coordinator agent not available",
              Msg.error "Team Coordinator agent not available"], calls, none⟩

/-! Helper lemmas and sample inputs. -/

/-- Length of a string truncation: `s[:n]` has `min n (len s)` characters. -/
theorem string_length_take (s : String) (n : Nat) :
    (s.take n).length = min n s.length := by
  obtain ⟨l⟩ := s
  rw [String.take_eq]
  simp [String.length]

/-- Adding to a set never yields the empty set. -/
theorem setAdd_ne_nil (s : List String) (x : String) : setAdd s x ≠ [] := by
  unfold setAdd
  split
  · rename_i h
    intro hnil
    rw [hnil] at h
    exact (List.not_mem_nil x) h
  · simp

/-- A sample knowledge-base handle: temp path and the default sidebar
parameters. -/
def kbSample : KB := ⟨"/tmp/doc.pdf", 1000, 200⟩

/-- An upload environment in which every external call succeeds. -/
def envAllOk : UploadEnv :=
  ⟨Except.ok "/tmp/doc.pdf", Except.ok (), Except.ok (), Except.ok 3, Except.ok (2, "text")⟩

/-- An upload environment consistent with the shipped module: the construction
step raises the `NameError` caused by the unbound name `DocumentChunking`. -/
def envSrcFaithful : UploadEnv :=
  ⟨Except.ok "/tmp/doc.pdf",
   Except.error "NameError: name DocumentChunking is not defined",
   Except.ok (), Except.ok 3, Except.ok (2, "text")⟩

/-- An upload environment in which write and construction succeed and `load`
raises. -/
def envLoadFails : UploadEnv :=
  ⟨Except.ok "/tmp/doc.pdf", Except.ok (), Except.error "load failed",
   Except.ok 3, Except.ok (2, "text")⟩

/-- An upload environment in which everything up to `load` succeeds and the
verification `search` raises. -/
def envSearchFails : UploadEnv :=
  ⟨Except.ok "/tmp/doc.pdf", Except.ok (), Except.ok (),
   Except.error "search blew up", Except.ok (2, "text")⟩

/-- Evaluation of the upload handler on the skip path (line 83): an
already-processed name leaves everything untouched. -/
theorem uploadHandler_skip (env : UploadEnv) (name : String) (size cs ov : Nat)
    (st : SessionState) (h : name ∈ st.processed_documents) :
    uploadHandler env name size cs ov st = ⟨st, [], []⟩ := by
  simp [uploadHandler, h]

/-- Evaluation of the upload handler when the temp-file write raises. -/
theorem uploadHandler_writeFail (env : UploadEnv) (name : String) (size cs ov : Nat)
    (st : SessionState) (e : PyExn) (hname : name ∉ st.processed_documents)
    (hw : env.writeResult = Except.error e) :
    uploadHandler env name size cs ov st =
      ⟨st, [Msg.error s!"Error processing document: {e}"], []⟩ := by
  simp [uploadHandler, hname, hw]

/-- Evaluation of the upload handler when the knowledge-base construction
(lines 92-99) raises — in the shipped module, every attempt. -/
theorem uploadHandler_constructFail (env : UploadEnv) (name : String) (size cs ov : Nat)
    (st : SessionState) (p : String) (e : PyExn) (hname : name ∉ st.processed_documents)
    (hw : env.writeResult = Except.ok p) (hc : env.constructResult = Except.error e) :
    uploadHandler env name size cs ov st =
      ⟨st, [Msg.error s!"Error processing document: {e}"], [UploadEvent.wroteTempFile]⟩ := by
  simp [uploadHandler, hname, hw, hc]

/-- Evaluation of the upload handler when `load` (line 102) raises: the
session already holds the new knowledge base (assigned on line 92). -/
theorem uploadHandler_loadFail (env : UploadEnv) (name : String) (size cs ov : Nat)
    (st : SessionState) (p : String) (e : PyExn) (hname : name ∉ st.processed_documents)
    (hw : env.writeResult = Except.ok p) (hc : env.constructResult = Except.ok ())
    (hl : env.loadResult = Except.error e) :
    uploadHandler env name size cs ov st =
      ⟨⟨some ⟨p, cs, ov⟩, st.processed_documents⟩,
       [Msg.error s!"Error processing document: {e}"],
       [UploadEvent.wroteTempFile, UploadEvent.constructedKB]⟩ := by
  simp [uploadHandler, hname, hw, hc, hl]

/-- Evaluation of the upload handler on every attempt that passes `load`:
whatever the verification search and the preview do, the new knowledge base is
in the session, the filename is added, and the success and info messages are
emitted. -/
theorem uploadHandler_complete (env : UploadEnv) (name : String) (size cs ov : Nat)
    (st : SessionState) (p : String) (hname : name ∉ st.processed_documents)
    (hw : env.writeResult = Except.ok p) (hc : env.constructResult = Except.ok ())
    (hl : env.loadResult = Except.ok ()) :
    uploadHandler env name size cs ov st =
      ⟨⟨some ⟨p, cs, ov⟩, setAdd st.processed_documents name⟩,
       verificationMsgs env ++
        [Msg.success "✅ Document processed and stored in knowledge base!",
         Msg.info s!"📊 Document Details: {name} ({size} bytes)",
         Msg.info s!"🔍 Knowledge Base Status: Active with {(setAdd st.processed_documents name).length} document(s)"] ++
        previewMsgs env,
       [UploadEvent.wroteTempFile, UploadEvent.constructedKB,
        UploadEvent.loadedKB, UploadEvent.searchedKB]⟩ := by
  simp [uploadHandler, hname, hw, hc, hl]

/-! Claim C7: an upload whose filename is already in the processed-document
set skips ingestion entirely. -/

/-- C7: when the uploaded filename is already in `processed_documents`, the
handler performs no external side effect (no temp-file write, no knowledge-base
construction, no load, no search), emits no message, and leaves the session
state unchanged — whatever the file content (the handler, and hence this
theorem, does not depend on the uploaded bytes at all, only on the name). -/
theorem C7_reupload_skipped (env : UploadEnv) (name : String)
    (size chunk_size overlap : Nat) (st : SessionState)
    (h : name ∈ st.processed_documents) :
    uploadHandler env name size chunk_size overlap st = ⟨st, [], []⟩ :=
  uploadHandler_skip env name size chunk_size overlap st h

/-- Witness for C7 at a concrete re-upload of `contract.pdf`. -/
theorem C7_reupload_skipped_witness :
    "contract.pdf" ∈ (⟨some kbSample, ["contract.pdf"]⟩ : SessionState).processed_documents ∧
    uploadHandler envAllOk "contract.pdf" 2048 1000 200 ⟨some kbSample, ["contract.pdf"]⟩ =
      ⟨⟨some kbSample, ["contract.pdf"]⟩, [], []⟩ :=
  ⟨by decide,
   C7_reupload_skipped envAllOk "contract.pdf" 2048 1000 200
     ⟨some kbSample, ["contract.pdf"]⟩ (by decide)⟩

/-! Claim C8: the agent factory returns four agents on a non-null knowledge
base and four `None`s on a null one, with no other path. -/

/-- C8: `initialize_ai_agents` returns `(None, None, None, None)` exactly when
the session knowledge base is null, and four non-null agent descriptors when it
is non-null; the function is total and has no other result or error path. -/
theorem C8_agent_factory (kb : Option KB) :
    (kb = none → initialize_ai_agents kb = (none, none, none, none)) ∧
    (∀ k, kb = some k →
      (initialize_ai_agents kb).1.isSome = true ∧
      (initialize_ai_agents kb).2.1.isSome = true ∧
      (initialize_ai_agents kb).2.2.1.isSome = true ∧
      (initialize_ai_agents kb).2.2.2.isSome = true) := by
  constructor
  · rintro rfl; rfl
  · rintro k rfl; exact ⟨rfl, rfl, rfl, rfl⟩

/-- Witness for C8 at a null and at a concrete non-null knowledge base. -/
theorem C8_agent_factory_witness :
    initialize_ai_agents none = (none, none, none, none) ∧
    (initialize_ai_agents (some kbSample)).1.isSome = true :=
  ⟨(C8_agent_factory none).1 rfl,
   ((C8_agent_factory (some kbSample)).2 kbSample rfl).1⟩

/-! Claim C1: the end-to-end upload scenario.  The shipped module cannot run
it: the name `DocumentChunking` on line 95 is bound by no import and no
definition, so the construction step of every upload attempt raises
`NameError`, the outer handler of lines 139-140 reports it, and
`processed_documents` never becomes `{"contract.pdf"}` — the analysis
interface (line 243) is never even rendered. -/

/-- C1: for every upload environment consistent with the shipped module (the
construction step raises, as forced by the unbound `DocumentChunking`),
uploading `contract.pdf` into a fresh session leaves the session state exactly
initial — in particular `processed_documents` is empty, not
`{"contract.pdf"}` — an error message is emitted, and the analysis interface
stays unavailable, so no Analyze click can follow. -/
theorem C1_ingestion_always_fails (env : UploadEnv) (size chunk_size overlap : Nat)
    (h : envFaithfulToSrc env) :
    (uploadHandler env "contract.pdf" size chunk_size overlap initialSessionState).state =
      initialSessionState ∧
    (uploadHandler env "contract.pdf" size chunk_size overlap
        initialSessionState).state.processed_documents ≠ ["contract.pdf"] ∧
    (∃ m, Msg.error m ∈
      (uploadHandler env "contract.pdf" size chunk_size overlap initialSessionState).msgs) ∧
    analysisInterfaceAvailable
      (uploadHandler env "contract.pdf" size chunk_size overlap initialSessionState).state
      = false ∧
    documentChunkingDefined = false := by
  obtain ⟨e, he⟩ := h
  cases hw : env.writeResult with
  | error e2 =>
      refine ⟨?_, ?_, ?_, ?_, rfl⟩ <;>
        simp [uploadHandler, hw, initialSessionState, analysisInterfaceAvailable]
  | ok p =>
      refine ⟨?_, ?_, ?_, ?_, rfl⟩ <;>
        simp [uploadHandler, hw, he, initialSessionState, analysisInterfaceAvailable]

/-- Witness for C1 at a concrete environment whose construction step raises
the `NameError` of the shipped module. -/
theorem C1_ingestion_always_fails_witness :
    envFaithfulToSrc envSrcFaithful ∧
    (uploadHandler envSrcFaithful "contract.pdf" 2048 1000 200 initialSessionState).state =
      initialSessionState :=
  ⟨⟨"NameError: name DocumentChunking is not defined", rfl⟩,
   (C1_ingestion_always_fails envSrcFaithful 2048 1000 200
     ⟨"NameError: name DocumentChunking is not defined", rfl⟩).1⟩

/-! Claim C2: failed ingestion reports the exception and leaves session state
untouched.  False as stated: line 92 assigns the newly constructed knowledge
base to the session before `load` runs on line 102, so a `load` exception is
caught and reported (lines 139-140) - but the session keeps the new, unloaded
knowledge base instead of the prior value. -/

/-- C2 counterexample: write and construction succeed, `load` raises.  The
exception is caught and reported as the handler's only message, yet the
session `knowledge_base`, null before the attempt, afterwards holds the newly
constructed knowledge base — not the value it had before. -/
theorem C2_counterexample :
    initialSessionState.document_knowledge_base = none ∧
    (uploadHandler envLoadFails "contract.pdf" 2048 1000 200 initialSessionState).msgs =
      [Msg.error "Error processing document: load failed"] ∧
    (uploadHandler envLoadFails "contract.pdf" 2048 1000 200
        initialSessionState).state.document_knowledge_base =
      some ⟨"/tmp/doc.pdf", 1000, 200⟩ := by
  decide

/-- C2 amended: every exception of the write, construction or load phase is
caught and reported to the user and never corrupts `processed_documents`; the
session `knowledge_base` retains its prior value when the failure occurs
during the temporary-file write or the knowledge-base construction, but a
failure during `load` leaves the newly constructed knowledge base in the
session. -/
theorem C2_amended (env : UploadEnv) (name : String) (size cs ov : Nat)
    (st : SessionState) (hname : name ∉ st.processed_documents) :
    (∀ e, env.writeResult = Except.error e →
        uploadHandler env name size cs ov st =
          ⟨st, [Msg.error s!"Error processing document: {e}"], []⟩) ∧
    (∀ p e, env.writeResult = Except.ok p → env.constructResult = Except.error e →
        uploadHandler env name size cs ov st =
          ⟨st, [Msg.error s!"Error processing document: {e}"], [UploadEvent.wroteTempFile]⟩) ∧
    (∀ p e, env.writeResult = Except.ok p → env.constructResult = Except.ok () →
        env.loadResult = Except.error e →
        (uploadHandler env name size cs ov st).state =
          ⟨some ⟨p, cs, ov⟩, st.processed_documents⟩ ∧
        (uploadHandler env name size cs ov st).msgs =
          [Msg.error s!"Error processing document: {e}"]) := by
  refine ⟨?_, ?_, ?_⟩
  · intro e hw
    simp [uploadHandler, hname, hw]
  · intro p e hw hc
    simp [uploadHandler, hname, hw, hc]
  · intro p e hw hc hl
    constructor <;> simp [uploadHandler, hname, hw, hc, hl]

/-- Witness for C2 amended at the concrete load-failure environment. -/
theorem C2_amended_witness :
    "contract.pdf" ∉ initialSessionState.processed_documents ∧
    (uploadHandler envLoadFails "contract.pdf" 2048 1000 200 initialSessionState).state =
      ⟨some ⟨"/tmp/doc.pdf", 1000, 200⟩, initialSessionState.processed_documents⟩ :=
  ⟨by decide,
   ((C2_amended envLoadFails "contract.pdf" 2048 1000 200 initialSessionState
       (by decide)).2.2 "/tmp/doc.pdf" "load failed" rfl rfl rfl).1⟩

/-! Claim C3: a verification-search exception abandons ingestion.  False as
stated: the exception is caught by the inner handler of lines 112-113, after
which execution continues — line 115 still adds the filename to the processed
set and line 117 still reports success. -/

/-- C3 counterexample: everything up to `load` succeeds and the verification
search raises.  The filename is nevertheless added to the processed-document
set and the success message is reported, alongside the verification error. -/
theorem C3_counterexample :
    (uploadHandler envSearchFails "contract.pdf" 2048 1000 200
        initialSessionState).state.processed_documents = ["contract.pdf"] ∧
    Msg.error "❌ Knowledge base verification failed: search blew up" ∈
      (uploadHandler envSearchFails "contract.pdf" 2048 1000 200 initialSessionState).msgs ∧
    Msg.success "✅ Document processed and stored in knowledge base!" ∈
      (uploadHandler envSearchFails "contract.pdf" 2048 1000 200 initialSessionState).msgs := by
  decide

/-- C3 amended: ingestion is abandoned (the filename is not added and no
success message is reported) exactly for exceptions of the write, construction
and load phases; a verification-search exception is only reported — the
filename is still added to the processed-document set and the success message
is still shown. -/
theorem C3_amended (env : UploadEnv) (name : String) (size cs ov : Nat)
    (st : SessionState) (hname : name ∉ st.processed_documents) :
    (∀ p e, env.writeResult = Except.ok p → env.constructResult = Except.ok () →
        env.loadResult = Except.ok () → env.searchResult = Except.error e →
        (uploadHandler env name size cs ov st).state.processed_documents =
          setAdd st.processed_documents name ∧
        Msg.error s!"❌ Knowledge base verification failed: {e}" ∈
          (uploadHandler env name size cs ov st).msgs ∧
        Msg.success "✅ Document processed and stored in knowledge base!" ∈
          (uploadHandler env name size cs ov st).msgs) ∧
    (∀ e, env.writeResult = Except.error e →
        (uploadHandler env name size cs ov st).state.processed_documents =
          st.processed_documents ∧
        Msg.success "✅ Document processed and stored in knowledge base!" ∉
          (uploadHandler env name size cs ov st).msgs) ∧
    (∀ p e, env.writeResult = Except.ok p → env.constructResult = Except.error e →
        (uploadHandler env name size cs ov st).state.processed_documents =
          st.processed_documents ∧
        Msg.success "✅ Document processed and stored in knowledge base!" ∉
          (uploadHandler env name size cs ov st).msgs) ∧
    (∀ p e, env.writeResult = Except.ok p → env.constructResult = Except.ok () →
        env.loadResult = Except.error e →
        (uploadHandler env name size cs ov st).state.processed_documents =
          st.processed_documents ∧
        Msg.success "✅ Document processed and stored in knowledge base!" ∉
          (uploadHandler env name size cs ov st).msgs) := by
  refine ⟨?_, ?_, ?_, ?_⟩
  · intro p e hw hc hl hs
    refine ⟨?_, ?_, ?_⟩ <;>
      simp [uploadHandler, hname, hw, hc, hl, verificationMsgs, hs]
  · intro e hw
    constructor <;> simp [uploadHandler, hname, hw]
  · intro p e hw hc
    constructor <;> simp [uploadHandler, hname, hw, hc]
  · intro p e hw hc hl
    constructor <;> simp [uploadHandler, hname, hw, hc, hl]

/-- Witness for C3 amended at the concrete verification-failure environment. -/
theorem C3_amended_witness :
    "contract.pdf" ∉ initialSessionState.processed_documents ∧
    (uploadHandler envSearchFails "contract.pdf" 2048 1000 200
        initialSessionState).state.processed_documents =
      setAdd initialSessionState.processed_documents "contract.pdf" :=
  ⟨by decide,
   ((C3_amended envSearchFails "contract.pdf" 2048 1000 200 initialSessionState
       (by decide)).1 "/tmp/doc.pdf" "search blew up" rfl rfl rfl rfl).1⟩

/-! Claim C9: the session invariant `knowledge_base non-null iff some document
was successfully ingested`.  False as stated: a `load`-phase failure assigns
the new knowledge base (line 92) without adding any document (line 115 is
never reached), breaking the biconditional. -/

/-- The biconditional claimed invariant over session states: the knowledge
base is non-null iff the processed-document set is non-empty. -/
def sessionInvariant (st : SessionState) : Prop :=
  st.document_knowledge_base.isSome = true ↔ st.processed_documents ≠ []

/-- C9 counterexample: the invariant holds in the initial state, yet one
upload attempt that fails during `load` produces a state with a non-null
knowledge base and an empty processed-document set — no document was
successfully ingested, so the biconditional is broken by a reachable
operation. -/
theorem C9_counterexample :
    sessionInvariant initialSessionState ∧
    ¬ sessionInvariant
        (uploadHandler envLoadFails "contract.pdf" 2048 1000 200 initialSessionState).state := by
  unfold sessionInvariant
  decide

/-- C9 amended: the biconditional holds initially and is preserved by the
skip path (already-processed name), by upload attempts failing during the
temporary-file write or the knowledge-base construction, and by every attempt
that reaches the `processed_documents.add` of line 115 (such an attempt makes
both sides true); the one violating operation is an upload attempt failing
during `load`, which sets the knowledge base without adding a document. -/
theorem C9_amended :
    sessionInvariant initialSessionState ∧
    (∀ env name size cs ov st, sessionInvariant st → name ∈ st.processed_documents →
        sessionInvariant (uploadHandler env name size cs ov st).state) ∧
    (∀ env name size cs ov st e, sessionInvariant st →
        env.writeResult = Except.error e →
        sessionInvariant (uploadHandler env name size cs ov st).state) ∧
    (∀ env name size cs ov st p e, sessionInvariant st →
        env.writeResult = Except.ok p → env.constructResult = Except.error e →
        sessionInvariant (uploadHandler env name size cs ov st).state) ∧
    (∀ env name size cs ov st p, name ∉ st.processed_documents →
        env.writeResult = Except.ok p →
        env.constructResult = Except.ok () → env.loadResult = Except.ok () →
        (uploadHandler env name size cs ov st).state.document_knowledge_base.isSome = true ∧
        (uploadHandler env name size cs ov st).state.processed_documents ≠ []) := by
  refine ⟨?_, ?_, ?_, ?_, ?_⟩
  · unfold sessionInvariant; decide
  · intro env name size cs ov st hinv hmem
    rw [uploadHandler_skip env name size cs ov st hmem]
    exact hinv
  · intro env name size cs ov st e hinv hw
    by_cases hmem : name ∈ st.processed_documents
    · rw [uploadHandler_skip env name size cs ov st hmem]
      exact hinv
    · rw [uploadHandler_writeFail env name size cs ov st e hmem hw]
      exact hinv
  · intro env name size cs ov st p e hinv hw hc
    by_cases hmem : name ∈ st.processed_documents
    · rw [uploadHandler_skip env name size cs ov st hmem]
      exact hinv
    · rw [uploadHandler_constructFail env name size cs ov st p e hmem hw hc]
      exact hinv
  · intro env name size cs ov st p hname hw hc hl
    rw [uploadHandler_complete env name size cs ov st p hname hw hc hl]
    exact ⟨rfl, setAdd_ne_nil st.processed_documents name⟩

/-- Witness for C9 amended, instantiating the preserved cases concretely: the
skip path on a populated state and a completed ingestion from the initial
state. -/
theorem C9_amended_witness :
    sessionInvariant initialSessionState ∧
    sessionInvariant
      (uploadHandler envAllOk "contract.pdf" 2048 1000 200
        ⟨some kbSample, ["contract.pdf"]⟩).state ∧
    (uploadHandler envAllOk "contract.pdf" 2048 1000 200
        initialSessionState).state.document_knowledge_base.isSome = true :=
  ⟨C9_amended.1,
   C9_amended.2.1 envAllOk "contract.pdf" 2048 1000 200
     ⟨some kbSample, ["contract.pdf"]⟩ (by unfold sessionInvariant; decide) (by decide),
   (C9_amended.2.2.2.2 envAllOk "contract.pdf" 2048 1000 200 initialSessionState
     "/tmp/doc.pdf" (by decide) rfl rfl rfl).1⟩

/-! Claims about the analysis side. -/

/-- An analysis environment in which every agent run succeeds; the coordinator
echoes its prompt back as the response. -/
def envEcho : AnalysisEnv :=
  ⟨fun _ => Except.ok ⟨"research findings", "research findings"⟩,
   fun _ => Except.ok ⟨"contract findings", "contract findings"⟩,
   fun _ => Except.ok ⟨"risk findings", "risk findings"⟩,
   fun p => Except.ok ⟨p, p⟩⟩

/-- An analysis environment in which the first specialist run raises (for
instance because the configured API key is invalid — the first point at which
a missing credential can surface). -/
def envAdvisorRaises : AnalysisEnv :=
  ⟨fun _ => Except.error "AuthenticationError: invalid API key",
   fun _ => Except.ok ⟨"contract findings", "contract findings"⟩,
   fun _ => Except.ok ⟨"risk findings", "risk findings"⟩,
   fun p => Except.ok ⟨p, p⟩⟩

/-! Claim C4: empty or whitespace-only custom queries are rejected before any
agent is invoked.  False as stated: line 284 tests Python truthiness
(`if not analysis_query_input`), which rejects only the empty string — no
stripping is performed, so a whitespace-only query proceeds to the
orchestrator. -/

/-- C4 counterexample: the custom query `" "` consists only of whitespace,
yet the Analyze click does not reject it — no warning is shown and agents are
invoked (six `run` calls). -/
theorem C4_counterexample :
    (" " : String) ≠ "" ∧
    " ".data.all Char.isWhitespace = true ∧
    Msg.warning "Please enter a query." ∉
      (analyzeClick ⟨some kbSample, ["contract.pdf"]⟩ envEcho " ").msgs ∧
    (analyzeClick ⟨some kbSample, ["contract.pdf"]⟩ envEcho " ").calls ≠ [] := by
  decide

/-- C4 amended: only the empty custom query is rejected by the Analyze click
— it alone produces the warning, with no agent constructed or invoked; every
non-empty query, including whitespace-only ones, bypasses the check (no
warning is shown for it). -/
theorem C4_amended (st : SessionState) (env : AnalysisEnv) (q : String) :
    (q = "" → analyzeClick st env q = ⟨[Msg.warning "Please enter a query."], [], none⟩) ∧
    (q ≠ "" → Msg.warning "Please enter a query." ∉ (analyzeClick st env q).msgs) := by
  constructor
  · intro hq
    subst hq
    rfl
  · intro hq
    unfold analyzeClick
    rw [if_neg hq]
    rcases hgen : generate_team_analysis st.document_knowledge_base env q with ⟨res, calls⟩
    rcases res with e | res
    · simp
    rcases res with s | resp
    · simp
    rcases hag : initialize_ai_agents st.document_knowledge_base with ⟨a1, a2, a3, a4⟩
    rcases a4 with _ | co
    · simp
    rcases hkp : env.coordinatorRun s!"Extract 5 key legal points from: {resp.content.take 300}..."
      with e | kp
    · simp [hkp]
    rcases hrec : env.coordinatorRun
        s!"Provide 3 specific legal recommendations from: {resp.content.take 300}..."
      with e | recResp
    · simp [hkp, hrec]
    · simp [hkp, hrec]

/-- Witness for C4 amended at the empty and at a non-empty concrete query. -/
theorem C4_amended_witness :
    analyzeClick ⟨some kbSample, ["contract.pdf"]⟩ envEcho "" =
      ⟨[Msg.warning "Please enter a query."], [], none⟩ ∧
    Msg.warning "Please enter a query." ∉
      (analyzeClick ⟨some kbSample, ["contract.pdf"]⟩ envEcho "Review").msgs :=
  ⟨(C4_amended ⟨some kbSample, ["contract.pdf"]⟩ envEcho "").1 rfl,
   (C4_amended ⟨some kbSample, ["contract.pdf"]⟩ envEcho "Review").2 (by decide)⟩

/-! Claim C5: each specialist response is embedded into the coordinator
prompt truncated to its first 500 characters. -/

/-- C5: on every analysis run in which the three specialists respond, the
prompt the coordinator agent receives embeds each specialist response (its
`str(...)` rendering) truncated by `[:500]`: the embedded fragment is the
response's first 500 characters — of length exactly `min 500 (len response)`,
i.e. exactly 500 whenever the response is at least that long. -/
theorem C5_specialist_truncation (kb : KB) (env : AnalysisEnv) (q : String)
    (r1 r2 r3 rep : RunResponse)
    (h1 : env.advisorRun s!"Research legal aspects of: {q}" = Except.ok r1)
    (h2 : env.examinerRun s!"Analyze contract for: {q}" = Except.ok r2)
    (h3 : env.riskRun s!"Assess risks and strategy for: {q}" = Except.ok r3)
    (h4 : env.coordinatorRun (coordinatorPrompt r1.str r2.str r3.str) = Except.ok rep) :
    (⟨"AnalysisCoordinator", coordinatorPrompt r1.str r2.str r3.str⟩ : AgentCall) ∈
      (generate_team_analysis (some kb) env q).2 ∧
    (generate_team_analysis (some kb) env q).1 = Except.ok (Sum.inr rep) ∧
    (∃ pre mid1 mid2 post,
      coordinatorPrompt r1.str r2.str r3.str =
        pre ++ r1.str.take 500 ++ mid1 ++ r2.str.take 500 ++ mid2 ++
          r3.str.take 500 ++ post) ∧
    (r1.str.take 500).length = min 500 r1.str.length ∧
    (r2.str.take 500).length = min 500 r2.str.length ∧
    (r3.str.take 500).length = min 500 r3.str.length := by
  refine ⟨?_, ?_,
    ⟨coordinatorPromptHeader, "...\nContract: ", "...\nStrategy: ", "...", rfl⟩,
    string_length_take r1.str 500, string_length_take r2.str 500,
    string_length_take r3.str 500⟩ <;>
  simp [generate_team_analysis, initialize_ai_agents, h1, h2, h3, h4]

/-- Witness for C5 at the echoing environment. -/
theorem C5_specialist_truncation_witness :
    (⟨"AnalysisCoordinator",
       coordinatorPrompt "research findings" "contract findings" "risk findings"⟩ : AgentCall) ∈
      (generate_team_analysis (some kbSample) envEcho "Review").2 :=
  (C5_specialist_truncation kbSample envEcho "Review"
    ⟨"research findings", "research findings"⟩
    ⟨"contract findings", "contract findings"⟩
    ⟨"risk findings", "risk findings"⟩
    ⟨coordinatorPrompt "research findings" "contract findings" "risk findings",
     coordinatorPrompt "research findings" "contract findings" "risk findings"⟩
    rfl rfl rfl rfl).1

/-! Claim C6: the first-page preview is at most 200 characters.  False as
stated: when the extracted text exceeds 200 characters, line 134 displays its
first 200 characters plus a three-character ellipsis — 203 characters. -/

/-- A first-page text of 201 identical characters. -/
def longText : String := String.mk (List.replicate 201 'a')

/-- An upload environment whose preview succeeds with a two-page document
whose first page extracts to `longText`. -/
def envPreviewLong : UploadEnv :=
  ⟨Except.ok "/tmp/doc.pdf", Except.ok (), Except.ok (), Except.ok 4,
   Except.ok (2, longText)⟩

/-- C6 counterexample: a successfully previewed first page whose extracted
text has 201 characters is displayed as a 203-character string — more than
200. -/
theorem C6_counterexample :
    longText.length = 201 ∧
    Msg.textArea "📝 First Page Preview:" (previewText longText) ∈
      (uploadHandler envPreviewLong "contract.pdf" 2048 1000 200 initialSessionState).msgs ∧
    ¬ (previewText longText).length ≤ 200 := by
  set_option maxRecDepth 100000 in decide

/-- C6 amended: the displayed preview is at most 203 characters: the full
text when it has at most 200 characters, and otherwise its first 200
characters terminated with the three-character ellipsis marker, 203 characters
in total. -/
theorem C6_amended (env : UploadEnv) (name : String) (size cs ov : Nat)
    (st : SessionState) (n : Nat) (t : String)
    (hname : name ∉ st.processed_documents)
    (hw : ∃ p, env.writeResult = Except.ok p)
    (hc : env.constructResult = Except.ok ())
    (hl : env.loadResult = Except.ok ())
    (hp : env.previewResult = Except.ok (n, t)) (hn : 0 < n) :
    Msg.textArea "📝 First Page Preview:" (previewText t) ∈
      (uploadHandler env name size cs ov st).msgs ∧
    (previewText t).length ≤ 203 ∧
    (t.length ≤ 200 → previewText t = t) ∧
    (200 < t.length →
      previewText t = t.take 200 ++ "..." ∧ (previewText t).length = 203) := by
  have h3 : ("..." : String).length = 3 := rfl
  refine ⟨?_, ?_, ?_, ?_⟩
  · obtain ⟨p, hwp⟩ := hw
    rw [uploadHandler_complete env name size cs ov st p hname hwp hc hl]
    simp [previewMsgs, hp, hn]
  · unfold previewText
    split
    · rename_i hgt
      rw [String.length_append, string_length_take, h3]
      have : min 200 t.length = 200 := Nat.min_eq_left (Nat.le_of_lt hgt)
      omega
    · rename_i hle
      omega
  · intro hle
    unfold previewText
    rw [if_neg (by omega)]
  · intro hgt
    unfold previewText
    rw [if_pos hgt]
    refine ⟨rfl, ?_⟩
    rw [String.length_append, string_length_take, h3]
    have : min 200 t.length = 200 := Nat.min_eq_left (Nat.le_of_lt hgt)
    omega

/-- Witness for C6 amended at the concrete long-text preview environment. -/
theorem C6_amended_witness :
    Msg.textArea "📝 First Page Preview:" (previewText longText) ∈
      (uploadHandler envPreviewLong "contract.pdf" 2048 1000 200 initialSessionState).msgs ∧
    (previewText longText).length ≤ 203 :=
  ⟨(C6_amended envPreviewLong "contract.pdf" 2048 1000 200 initialSessionState
      2 longText (by decide) ⟨"/tmp/doc.pdf", rfl⟩ rfl rfl rfl (by decide)).1,
   (C6_amended envPreviewLong "contract.pdf" 2048 1000 200 initialSessionState
      2 longText (by decide) ⟨"/tmp/doc.pdf", rfl⟩ rfl rfl rfl (by decide)).2.1⟩

/-! Claim C10: every failure is caught and converted to a user-visible
message; rendering the initialization-error string does not raise.  False as
stated: none of the agent `run` calls of the analysis path is guarded, so an
exception raised there propagates uncaught out of the Analyze handler with no
user-visible message produced by the script. -/

/-- C10 counterexample: with a non-null knowledge base and a valid query, an
exception raised by the first specialist `run` escapes the Analyze handler
uncaught — the script converts it to no user-visible message at all. -/
theorem C10_counterexample :
    (analyzeClick ⟨some kbSample, ["contract.pdf"]⟩ envAdvisorRaises
        "Review the contract").uncaught = some "AuthenticationError: invalid API key" ∧
    (analyzeClick ⟨some kbSample, ["contract.pdf"]⟩ envAdvisorRaises
        "Review the contract").msgs = [] := by
  decide

/-- C10 amended: ingestion failures are caught, but analysis failures are
not: an exception raised by an agent `run` propagates uncaught out of the
Analyze handler with no user-visible message.  The initialization-error
string of `generate_team_analysis` is never returned when the session
knowledge base is non-null — the only state in which the Analyze button is
rendered (line 243) — and in the hypothetical null-knowledge-base run the
returned error string makes the rendering of line 295 raise an uncaught
`AttributeError` rather than display anything. -/
theorem C10_amended :
    (∀ (k : KB) (env : AnalysisEnv) (q s : String),
        (generate_team_analysis (some k) env q).1 ≠ Except.ok (Sum.inl s)) ∧
    (∀ (st : SessionState) (env : AnalysisEnv) (q e : String), q ≠ "" →
        env.advisorRun s!"Research legal aspects of: {q}" = Except.error e →
        ∀ k, st.document_knowledge_base = some k →
        (analyzeClick st env q).uncaught = some e ∧ (analyzeClick st env q).msgs = []) ∧
    (∀ (st : SessionState) (env : AnalysisEnv) (q : String), q ≠ "" →
        st.document_knowledge_base = none →
        (analyzeClick st env q).uncaught =
          some "AttributeError: str object has no attribute content") := by
  refine ⟨?_, ?_, ?_⟩
  · intro k env q s
    unfold generate_team_analysis
    simp only [initialize_ai_agents]
    repeat' split
    all_goals simp
  · intro st env q e hq ha k hk
    constructor <;>
      simp [analyzeClick, if_neg hq, hk, generate_team_analysis,
        initialize_ai_agents, ha]
  · intro st env q hq hk
    simp [analyzeClick, if_neg hq, hk, generate_team_analysis, initialize_ai_agents]

/-- Witness for C10 amended at concrete environments: the non-null
knowledge-base run never yields the error string, the raising run escapes
uncaught, and the null-knowledge-base run aborts with the `AttributeError`. -/
theorem C10_amended_witness :
    (generate_team_analysis (some kbSample) envEcho "Review").1 ≠
      Except.ok (Sum.inl "anything") ∧
    (analyzeClick ⟨some kbSample, ["contract.pdf"]⟩ envAdvisorRaises "Review").uncaught =
      some "AuthenticationError: invalid API key" ∧
    (analyzeClick ⟨none, []⟩ envEcho "Review").uncaught =
      some "AttributeError: str object has no attribute content" :=
  ⟨C10_amended.1 kbSample envEcho "Review" "anything",
   (C10_amended.2.1 ⟨some kbSample, ["contract.pdf"]⟩ envAdvisorRaises "Review"
      "AuthenticationError: invalid API key" (by decide) rfl kbSample rfl).1,
   C10_amended.2.2 ⟨none, []⟩ envEcho "Review" (by decide) rfl⟩

end LegalTeam
